import Mathlib

/-!
Verification of clouddrove/smurf: push-event loop, secure terraform invocation, error classification

A shallow embedding of

* `internal/docker/pushHub.go` (`PushImage`),
* `internal/terraform/state_pull.go` (`resolveTerraformBinary`, `secureEnv`,
  `pullRemoteState`, `checkBackendConfiguration`, `prettyPrintJSON`,
  `formatPullErrorMessage`, `StatePull`).

Go errors are represented by their message (`err.Error()`); `nil` is `none`
or `Except.ok`.  Calls into the operating system, the Docker daemon and the
terminal are made explicit: their outcomes are inputs of the model and the
calls that are made are recorded, in order, in an event list.
-/

namespace Smurf

/-! ## `strings.Contains` -/

namespace strings

/-- Go `strings.HasPrefix` on the character sequences: `p` is an initial segment of `s`. -/
def hasPrefixChars : List Char → List Char → Bool
  | _, [] => true
  | [], _ :: _ => false
  | c :: s, d :: p => c == d && hasPrefixChars s p

/-- Search for `sub` at every start position of `s`, left to right. -/
def containsChars : List Char → List Char → Bool
  | [], sub => hasPrefixChars [] sub
  | c :: s, sub => hasPrefixChars (c :: s) sub || containsChars s sub

/-- Go `strings.Contains(s, substr)`: `substr` occurs within `s`.  Go compares
bytes; on UTF-8 text an occurrence of the bytes of `substr` is an occurrence
of its characters, so the search runs over characters. -/
def Contains (s substr : String) : Bool :=
  containsChars s.data substr.data

end strings

open strings

/-! ## `internal/docker/pushHub.go` -/

/-- Modelled from the spec: the `jsonMessage` type is declared outside the
files at hand; section 6 gives the shape of a push event as
`{status?, progress?, error?}` and `PushImage` reads the fields `Status`,
`Progress` and `Error`, all compared with the empty string. -/
structure jsonMessage where
  Status : String
  Progress : String
  Error : String
  deriving DecidableEq, Repr

/-- Modelled from the spec: `PushOptions` is declared outside the files at
hand; `PushImage` reads `ImageName` and `Timeout` (here in nanoseconds, only
handed to the context). -/
structure PushOptions where
  ImageName : String
  Timeout : Nat
  deriving DecidableEq, Repr

/-- Calls that `PushImage` makes on the spinner, on the progress bar and on the
resources it has to release, in the order they happen. -/
inductive UIEvent where
  | spinnerStart (text : String)
  | spinnerUpdateText (text : String)
  | spinnerFail (text : String)
  | spinnerSuccess (text : String)
  | progressStart (total : Nat) (title : String)
  | progressAdd (count : Nat)
  | progressUpdateTitle (title : String)
  | progressStop
  | respClose
  | cliClose
  | ctxCancel
  deriving DecidableEq, Repr

/-- Result of the `for` loop of `PushImage`: the calls made and, when the loop
left through `return`, the message of the returned error. -/
structure LoopResult where
  events : List UIEvent
  err : Option String
  deriving DecidableEq, Repr

/-- The `for` loop of `PushImage` (lines 64-88).  The argument lists what the
successive calls `decoder.Decode(&msg)` give: `some msg` for a decoded event,
`none` for a call that returns an error; after the last element `Decode`
returns `io.EOF`. -/
def pushLoop : List (Option jsonMessage) → LoopResult
  | [] => ⟨[], none⟩
  | none :: _ => ⟨[], none⟩
  | some msg :: rest =>
    if msg.Error ≠ "" then
      ⟨[.spinnerFail msg.Error], some ("push error: " ++ msg.Error)⟩
    else
      let onStatus : List UIEvent :=
        if msg.Status ≠ "" then
          (if Contains msg.Status "Layer already exists" then [.progressAdd 10]
           else if Contains msg.Status "Pushed" then [.progressAdd 15]
           else []) ++ [.spinnerUpdateText msg.Status]
        else []
      let onProgress : List UIEvent :=
        if msg.Progress ≠ "" then
          [.progressUpdateTitle (msg.Status ++ ": " ++ msg.Progress)]
        else []
      let r := pushLoop rest
      ⟨onStatus ++ onProgress ++ r.events, r.err⟩

/-- What `PushImage` gets from outside: the errors of
`client.NewClientWithOpts` and of `json.Marshal(authConfig)`, the result of
`cli.ImagePush` (an error, or the stream of decode results of the response
body) and `color.GreenString`. -/
structure DockerEnv where
  newClientErr : Option String
  marshalErr : Option String
  imagePush : Except String (List (Option jsonMessage))
  greenString : String → String

/-- Result of `PushImage`: the calls made, the deferred ones included, and the
returned error (`none` for `nil`). -/
structure PushResult where
  events : List UIEvent
  err : Option String
  deriving DecidableEq, Repr

/-- Go function `PushImage` (lines 22-94). -/
def PushImage (env : DockerEnv) (opts : PushOptions) : PushResult :=
  let e0 : List UIEvent := [.spinnerStart "Initializing Docker client..."]
  match env.newClientErr with
  | some err =>
    ⟨e0 ++ [.spinnerFail "Failed to initialize Docker client", .ctxCancel],
      some ("docker client init failed: " ++ err)⟩
  | none =>
    let e1 := e0 ++ [.spinnerUpdateText "Preparing authentication..."]
    match env.marshalErr with
    | some err =>
      ⟨e1 ++ [.spinnerFail "Authentication preparation failed", .cliClose, .ctxCancel],
        some ("auth encoding failed: " ++ err)⟩
    | none =>
      let e2 := e1 ++ [.spinnerUpdateText ("Pushing image " ++ opts.ImageName ++ "...")]
      match env.imagePush with
      | .error err =>
        ⟨e2 ++ [.spinnerFail ("Failed to push image " ++ opts.ImageName), .cliClose, .ctxCancel],
          some ("push failed: " ++ err)⟩
      | .ok stream =>
        let e3 := e2 ++ [.progressStart 100 "Push Progress"]
        let r := pushLoop stream
        match r.err with
        | some err => ⟨e3 ++ r.events ++ [.respClose, .cliClose, .ctxCancel], some err⟩
        | none =>
          ⟨e3 ++ r.events ++
              [.progressStop,
               .spinnerSuccess (env.greenString ("Successfully pushed image " ++ opts.ImageName)),
               .respClose, .cliClose, .ctxCancel],
            none⟩

/-- The counts handed to `progressBar.Add`, in order. -/
def progressIncrements : List UIEvent → List Nat
  | [] => []
  | .progressAdd n :: es => n :: progressIncrements es
  | _ :: es => progressIncrements es

/-- The calls the status and progress branches (lines 75-87) make for one event. -/
def statusProgressEffects (msg : jsonMessage) : List UIEvent :=
  (if msg.Status ≠ "" then
    (if Contains msg.Status "Layer already exists" then [.progressAdd 10]
     else if Contains msg.Status "Pushed" then [.progressAdd 15]
     else []) ++ [.spinnerUpdateText msg.Status]
   else []) ++
  (if msg.Progress ≠ "" then
    [.progressUpdateTitle (msg.Status ++ ": " ++ msg.Progress)]
   else [])

/-! ## `internal/terraform/state_pull.go` -/

/-- What `os.Stat` returns on success, as far as the code looks at it: the mode bits. -/
structure FileInfo where
  mode : Nat
  deriving DecidableEq, Repr

/-- Go `FileMode.Perm`: the Unix permission bits, `m & ModePerm` with `ModePerm = 0o777`. -/
def FileInfo.Perm (info : FileInfo) : Nat :=
  info.mode &&& 0o777

/-- An error of `os.Stat`: its message and what `os.IsNotExist` says of it. -/
structure StatError where
  msg : String
  isNotExist : Bool
  deriving DecidableEq, Repr

/-- An `exec.Cmd` as the code builds it: `exec.Command(name, arg...)` gives
`Path = name` and `Args = name :: arg`; `Dir` and `Env` are set afterwards. -/
structure Cmd where
  Path : String
  Args : List String
  Dir : String
  Env : List String
  deriving DecidableEq, Repr

/-- What `cmd.Run()` leaves behind: the bytes written to the two buffers and the
returned error. -/
structure ProcessResult where
  stdout : List Nat
  stderr : String
  exitError : Option String
  deriving DecidableEq, Repr

/-- Calls with an effect outside the program, in the order they happen. -/
inductive TfEvent where
  | spawn (cmd : Cmd)
  | logError (text : String)
  | logWarn (text : String)
  | logInfo (text : String)
  | logSuccess (text : String)
  | aiExplain (useAI : Bool) (text : String)
  | stdoutWrite (bytes : List Nat)
  deriving DecidableEq, Repr

/-- The system the terraform commands run on, with states `σ`.  Lookups and
`os.Stat` read the state; running a process or `GetTerraform` may change it.
`Join`, `Base` and `Indent` are `filepath.Join`, `filepath.Base` and
`json.Indent` with prefix `""` and indent `"  "`.  `GetTerraform` is declared
outside the files at hand and is taken as it is found: the error it returns
and the state it leaves. -/
structure OS (σ : Type) where
  LookPath : σ → String → Option String
  Stat : σ → String → Except StatError FileInfo
  Run : σ → Cmd → ProcessResult × σ
  StdoutWrite : σ → List Nat → Option String
  Join : String → String → String
  Base : String → String
  Indent : List Nat → Except String (List Nat)
  GetTerraform : σ → String → Option String × σ

/-- Result of an operation: the returned value or error, the state of the
system afterwards and the events it caused. -/
structure Outcome (σ α : Type) where
  result : Except String α
  state : σ
  events : List TfEvent

/-- The processes spawned, in order. -/
def spawned : List TfEvent → List Cmd
  | [] => []
  | .spawn c :: es => c :: spawned es
  | _ :: es => spawned es

/-- Go function `resolveTerraformBinary` (lines 17-34). -/
def resolveTerraformBinary {σ : Type} (os : OS σ) (s : σ) : Except String String :=
  match os.LookPath s "terraform" with
  | none => .error "terraform binary not found in PATH"
  | some terraformPath =>
    match os.Stat s terraformPath with
    | .error err => .error ("unable to stat terraform binary: " ++ err.msg)
    | .ok info =>
      if info.Perm &&& 0o022 ≠ 0 then
        .error "terraform binary is writable; insecure PATH configuration"
      else
        .ok terraformPath

/-- Go function `secureEnv` (lines 37-41). -/
def secureEnv : List String :=
  ["PATH=/usr/local/sbin:/usr/local/bin:/usr/sbin:/usr/bin:/bin"]

/-- Go function `pullRemoteState` (lines 78-106). -/
def pullRemoteState {σ : Type} (os : OS σ) (s : σ) (workingDir : String) :
    Outcome σ (List Nat) :=
  match resolveTerraformBinary os s with
  | .error err => ⟨.error err, s, []⟩
  | .ok terraformPath =>
    let cmd : Cmd := ⟨terraformPath, [terraformPath, "state", "pull"], workingDir, secureEnv⟩
    let r := os.Run s cmd
    match r.1.exitError with
    | some err =>
      if r.1.stderr ≠ "" then
        ⟨.error (err ++ ": " ++ r.1.stderr), r.2, [.spawn cmd]⟩
      else
        ⟨.error err, r.2, [.spawn cmd]⟩
    | none =>
      if r.1.stdout.length = 0 then
        ⟨.error "received empty state", r.2, [.spawn cmd]⟩
      else
        ⟨.ok r.1.stdout, r.2, [.spawn cmd]⟩

/-- Go function `checkBackendConfiguration` (lines 109-130). -/
def checkBackendConfiguration {σ : Type} (os : OS σ) (s : σ) (dir : String) :
    Outcome σ Unit :=
  match resolveTerraformBinary os s with
  | .error err => ⟨.error err, s, []⟩
  | .ok terraformPath =>
    let cmd : Cmd :=
      ⟨terraformPath, [terraformPath, "init", "-backend=true", "-get=false"], dir, secureEnv⟩
    let r := os.Run s cmd
    match r.1.exitError with
    | some _ => ⟨.error "backend initialization check failed", r.2, [.spawn cmd]⟩
    | none =>
      let terraformDir := os.Join dir ".terraform"
      match os.Stat r.2 terraformDir with
      | .error err =>
        if err.isNotExist then
          ⟨.error "terraform directory not found, run 'terraform init' first", r.2, [.spawn cmd]⟩
        else
          ⟨.ok (), r.2, [.spawn cmd]⟩
      | .ok _ => ⟨.ok (), r.2, [.spawn cmd]⟩

/-- Go function `prettyPrintJSON` (lines 133-148): the returned error and the writes to
standard output. -/
def prettyPrintJSON {σ : Type} (os : OS σ) (s : σ) (data : List Nat) :
    Option String × List TfEvent :=
  match os.Indent data with
  | .error err => (some ("failed to format JSON: " ++ err), [])
  | .ok prettyJSON =>
    match os.StdoutWrite s prettyJSON with
    | some err => (some ("failed to write output: " ++ err), [.stdoutWrite prettyJSON])
    | none => (none, [.stdoutWrite prettyJSON, .stdoutWrite [10]])

/-- First remediation text of `formatPullErrorMessage` (lines 156-159). -/
def missingStateMessage : String :=
  "No remote state found. This could mean:\n" ++
  "  • The remote backend hasn't been initialized (run 'terraform init')\n" ++
  "  • No resources have been created yet\n" ++
  "  • The state file doesn't exist in the remote backend"

/-- Second remediation text (lines 162-165). -/
def permissionMessage : String :=
  "Permission denied accessing remote state. Check:\n" ++
  "  • Your AWS/GCP/Azure credentials are properly configured\n" ++
  "  • You have read access to the backend\n" ++
  "  • The backend configuration is correct"

/-- Third remediation text (lines 168-171). -/
def timeoutMessage : String :=
  "Timeout while connecting to remote backend. Check:\n" ++
  "  • Your network connection\n" ++
  "  • The backend endpoint is accessible\n" ++
  "  • Proxy/firewall settings"

/-- Fourth remediation text (lines 174-176). -/
def dnsMessage : String :=
  "Cannot resolve backend hostname. Check:\n" ++
  "  • Your DNS configuration\n" ++
  "  • The backend endpoint URL is correct"

/-- The text before the error in the default case (line 179). -/
def genericHead : String :=
  "Failed to pull remote state: "

/-- The text after the error in the default case (lines 179-184). -/
def genericTail : String :=
  "\n\n" ++
  "Troubleshooting steps:\n" ++
  "  1. Run 'terraform init'\n" ++
  "  2. Verify backend configuration\n" ++
  "  3. Check cloud provider credentials\n" ++
  "  4. Ensure network access to backend"

/-- Go function `formatPullErrorMessage` (lines 151-186), on the message of the error. -/
def formatPullErrorMessage (errMsg : String) : String :=
  if Contains errMsg "no state file" then
    missingStateMessage
  else if Contains errMsg "access denied" || Contains errMsg "permission denied" then
    permissionMessage
  else if Contains errMsg "context deadline exceeded" || Contains errMsg "timeout" then
    timeoutMessage
  else if Contains errMsg "no such host" then
    dnsMessage
  else
    genericHead ++ errMsg ++ genericTail

/-- Go function `StatePull` (lines 44-75). -/
def StatePull {σ : Type} (os : OS σ) (s : σ) (dir : String) (useAI : Bool) :
    Outcome σ Unit :=
  match os.GetTerraform s dir with
  | (some err, s1) =>
    ⟨.error err, s1,
      [.logError ("Failed to initialize Terraform: " ++ err), .aiExplain useAI err]⟩
  | (none, s1) =>
    let c := checkBackendConfiguration os s1 dir
    let warned : List TfEvent :=
      match c.result with
      | .error err =>
        [.logWarn ("No remote backend configured or unable to check: " ++ err),
         .logInfo "Attempting to pull state anyway..."]
      | .ok _ => []
    let before : List TfEvent :=
      c.events ++ warned ++ [.logInfo ("Pulling remote state from: " ++ os.Base dir)]
    let p := pullRemoteState os c.state dir
    match p.result with
    | .error err =>
      ⟨.error ("state pull failed: " ++ err), p.state,
        before ++ p.events ++
          [.logError ("Failed to pull remote state: " ++ err),
           .aiExplain useAI (formatPullErrorMessage err)]⟩
    | .ok state =>
      let pp := prettyPrintJSON os p.state state
      let fallback : List TfEvent :=
        match pp.1 with
        | some _ => [.stdoutWrite (state ++ [10])]
        | none => []
      ⟨.ok (), p.state,
        before ++ p.events ++ pp.2 ++ fallback ++
          [.logSuccess "Successfully pulled remote state"]⟩

/-! ### The classifier as the specification words it -/

/-- The fixed ordered list of remediation entries: the patterns of an entry and
its message. -/
def remediationEntries : List (List String × String) :=
  [(["no state file"], missingStateMessage),
   (["access denied", "permission denied"], permissionMessage),
   (["context deadline exceeded", "timeout"], timeoutMessage),
   (["no such host"], dnsMessage)]

/-- First-match lookup: the message of the first entry one of whose patterns
occurs in the error message, and the generic troubleshooting text around the
error message when there is none. -/
def classifyFirstMatch (errMsg : String) : String :=
  match remediationEntries.find? (fun e => e.1.any (fun pat => Contains errMsg pat)) with
  | some e => e.2
  | none => genericHead ++ errMsg ++ genericTail

/-! ## Definitions used in the statements -/

/-- The increment the loop issues for a status text: 10 when it contains
"Layer already exists", else 15 when it contains "Pushed", else none. -/
def incrementOf (status : String) : Option Nat :=
  if Contains status "Layer already exists" then some 10
  else if Contains status "Pushed" then some 15
  else none

/-- The calls of `PushImage` before the loop, when the client, the
authentication and the push request succeed (lines 23-62). -/
def pushPrelude (opts : PushOptions) : List UIEvent :=
  [.spinnerStart "Initializing Docker client...",
   .spinnerUpdateText "Preparing authentication...",
   .spinnerUpdateText ("Pushing image " ++ opts.ImageName ++ "..."),
   .progressStart 100 "Push Progress"]

/-- The calls of `PushImage` after a loop that ended without `return`
(lines 90-93), followed by the deferred ones. -/
def pushEpilogue (env : DockerEnv) (opts : PushOptions) : List UIEvent :=
  [.progressStop,
   .spinnerSuccess (env.greenString ("Successfully pushed image " ++ opts.ImageName)),
   .respClose, .cliClose, .ctxCancel]

/-- The sum of the counts handed to `progressBar.Add` by the loop on a stream. -/
def accumulated (stream : List (Option jsonMessage)) : Nat :=
  (progressIncrements (pushLoop stream).events).sum

/-- An environment in which the client, the authentication and the push request
succeed and the response body decodes to `stream`. -/
def streamEnv (stream : List (Option jsonMessage)) : DockerEnv :=
  ⟨none, none, .ok stream, fun text => text⟩

/-- Push options used in the examples. -/
def sampleOpts : PushOptions :=
  ⟨"acme/app:1.0", 60000000000⟩

/-- The command `pullRemoteState` runs (lines 85-87). -/
def statePullCmd (terraformPath workingDir : String) : Cmd :=
  ⟨terraformPath, [terraformPath, "state", "pull"], workingDir, secureEnv⟩

/-- The command `checkBackendConfiguration` runs (lines 116-118). -/
def initCmd (terraformPath dir : String) : Cmd :=
  ⟨terraformPath, [terraformPath, "init", "-backend=true", "-get=false"], dir, secureEnv⟩

/-- The backend precheck as `StatePull` runs it: in the state `GetTerraform` leaves. -/
def precheck {σ : Type} (os : OS σ) (s : σ) (dir : String) : Outcome σ Unit :=
  checkBackendConfiguration os (os.GetTerraform s dir).2 dir

/-- The state fetch as `StatePull` runs it: in the state the precheck leaves. -/
def fetch {σ : Type} (os : OS σ) (s : σ) (dir : String) : Outcome σ (List Nat) :=
  pullRemoteState os (precheck os s dir).state dir

/-- A system for the examples: `terraform` is found at `/usr/bin/terraform` with
mode `tfMode`, every process ends as `run` says, `os.Stat` of any other path
gives `dirStat`, and `GetTerraform` accepts every directory. -/
def sampleOS (tfMode : Nat) (run : ProcessResult) (dirStat : Except StatError FileInfo) :
    OS Unit where
  LookPath _ name := if name = "terraform" then some "/usr/bin/terraform" else none
  Stat _ path := if path = "/usr/bin/terraform" then .ok ⟨tfMode⟩ else dirStat
  Run _ _ := (run, ())
  StdoutWrite _ _ := none
  Join dir elem := dir ++ "/" ++ elem
  Base dir := dir
  Indent data := .ok data
  GetTerraform _ _ := (none, ())

/-- A system on which the search-path lookup of `terraform` fails. -/
def noBinaryOS : OS Unit where
  LookPath _ _ := none
  Stat _ _ := .error ⟨"no such file or directory", true⟩
  Run _ _ := (⟨[], "", none⟩, ())
  StdoutWrite _ _ := none
  Join dir elem := dir ++ "/" ++ elem
  Base dir := dir
  Indent data := .ok data
  GetTerraform _ _ := (none, ())

/-! ## Properties of `strings.Contains` -/

theorem hasPrefixChars_iff (s p : List Char) :
    hasPrefixChars s p = true ↔ p <+: s := by
  induction s generalizing p with
  | nil => cases p <;> simp [hasPrefixChars]
  | cons c s ih =>
    cases p with
    | nil => simp [hasPrefixChars]
    | cons d p =>
      simp only [hasPrefixChars, Bool.and_eq_true, beq_iff_eq, List.cons_prefix_cons, ih]
      exact ⟨fun h => ⟨h.1.symm, h.2⟩, fun h => ⟨h.1.symm, h.2⟩⟩

theorem containsChars_iff (s sub : List Char) :
    containsChars s sub = true ↔ sub <:+: s := by
  induction s with
  | nil => simp [containsChars, hasPrefixChars_iff, List.prefix_nil, List.infix_nil]
  | cons c s ih => simp [containsChars, hasPrefixChars_iff, ih, List.infix_cons_iff]

/-- The test `Contains s substr` holds exactly when the characters of `substr` are a
contiguous part of those of `s`. -/
theorem Contains_iff (s substr : String) :
    Contains s substr = true ↔ substr.data <:+: s.data :=
  containsChars_iff _ _

theorem Contains_middle (a m b : String) : Contains (a ++ m ++ b) m = true := by
  rw [Contains_iff]
  exact ⟨a.data, b.data, by simp [String.data_append]⟩

/-! ## The push loop -/

theorem pushLoop_clean_cons (m : jsonMessage) (rest : List (Option jsonMessage))
    (h : m.Error = "") :
    pushLoop (some m :: rest) =
      ⟨statusProgressEffects m ++ (pushLoop rest).events, (pushLoop rest).err⟩ := by
  simp [pushLoop, statusProgressEffects, h]

theorem pushLoop_error_cons (m : jsonMessage) (rest : List (Option jsonMessage))
    (h : m.Error ≠ "") :
    pushLoop (some m :: rest) =
      ⟨[.spinnerFail m.Error], some ("push error: " ++ m.Error)⟩ := by
  simp [pushLoop, h]

theorem pushLoop_clean_append (pre : List jsonMessage) (rest : List (Option jsonMessage))
    (h : ∀ m ∈ pre, m.Error = "") :
    pushLoop (pre.map some ++ rest) =
      ⟨pre.flatMap statusProgressEffects ++ (pushLoop rest).events, (pushLoop rest).err⟩ := by
  induction pre with
  | nil => simp
  | cons m pre ih =>
    have hm : m.Error = "" := h m (by simp)
    have hpre : ∀ x ∈ pre, x.Error = "" := fun x hx => h x (by simp [hx])
    simp [pushLoop_clean_cons _ _ hm, ih hpre]

theorem PushImage_loop_ok (env : DockerEnv) (opts : PushOptions)
    (stream : List (Option jsonMessage))
    (h1 : env.newClientErr = none) (h2 : env.marshalErr = none)
    (h3 : env.imagePush = .ok stream) (h4 : (pushLoop stream).err = none) :
    PushImage env opts =
      ⟨pushPrelude opts ++ (pushLoop stream).events ++ pushEpilogue env opts, none⟩ := by
  simp [PushImage, h1, h2, h3, h4, pushPrelude, pushEpilogue]

theorem PushImage_loop_err (env : DockerEnv) (opts : PushOptions)
    (stream : List (Option jsonMessage)) (e : String)
    (h1 : env.newClientErr = none) (h2 : env.marshalErr = none)
    (h3 : env.imagePush = .ok stream) (h4 : (pushLoop stream).err = some e) :
    PushImage env opts =
      ⟨pushPrelude opts ++ (pushLoop stream).events ++ [.respClose, .cliClose, .ctxCancel],
        some e⟩ := by
  simp [PushImage, h1, h2, h3, h4, pushPrelude]

theorem progressIncrements_append (a b : List UIEvent) :
    progressIncrements (a ++ b) = progressIncrements a ++ progressIncrements b := by
  induction a with
  | nil => rfl
  | cons e a ih => cases e <;> simp [progressIncrements, ih]

theorem progressIncrements_effects (m : jsonMessage) :
    progressIncrements (statusProgressEffects m) = (incrementOf m.Status).toList := by
  unfold statusProgressEffects incrementOf
  by_cases hs : m.Status = ""
  · have h1 : Contains "" "Layer already exists" = false := by decide
    have h2 : Contains "" "Pushed" = false := by decide
    by_cases hp : m.Progress = "" <;> simp [hs, hp, h1, h2, progressIncrements]
  · by_cases hp : m.Progress = "" <;>
      by_cases ha : Contains m.Status "Layer already exists" = true <;>
      by_cases hb : Contains m.Status "Pushed" = true <;>
      simp [hs, hp, ha, hb, progressIncrements]

theorem progressIncrements_clean (pre : List jsonMessage) :
    progressIncrements (pre.flatMap statusProgressEffects) =
      pre.filterMap (fun m => incrementOf m.Status) := by
  induction pre with
  | nil => rfl
  | cons m pre ih =>
    simp only [List.flatMap_cons, progressIncrements_append, progressIncrements_effects, ih,
      List.filterMap_cons]
    cases incrementOf m.Status <;> simp

theorem progressIncrements_prelude (opts : PushOptions) :
    progressIncrements (pushPrelude opts) = [] := rfl

theorem progressIncrements_epilogue (env : DockerEnv) (opts : PushOptions) :
    progressIncrements (pushEpilogue env opts) = [] := rfl

theorem accumulated_nil : accumulated [] = 0 := rfl

theorem accumulated_none (rest : List (Option jsonMessage)) :
    accumulated (none :: rest) = 0 := rfl

theorem accumulated_error (m : jsonMessage) (rest : List (Option jsonMessage))
    (h : m.Error ≠ "") : accumulated (some m :: rest) = 0 := by
  simp [accumulated, pushLoop_error_cons _ _ h, progressIncrements]

theorem accumulated_clean (m : jsonMessage) (rest : List (Option jsonMessage))
    (h : m.Error = "") :
    accumulated (some m :: rest) = (incrementOf m.Status).toList.sum + accumulated rest := by
  simp [accumulated, pushLoop_clean_cons _ _ h, progressIncrements_append,
    progressIncrements_effects]

theorem incrementOf_cases (status : String) :
    incrementOf status = none ∨ incrementOf status = some 10 ∨ incrementOf status = some 15 := by
  unfold incrementOf
  by_cases ha : Contains status "Layer already exists" = true <;>
    by_cases hb : Contains status "Pushed" = true <;> simp [ha, hb]

theorem incrementOf_sum_le (status : String) : (incrementOf status).toList.sum ≤ 15 := by
  rcases incrementOf_cases status with h | h | h <;> simp [h]

theorem accumulated_le (stream : List (Option jsonMessage)) :
    accumulated stream ≤ 15 * stream.length := by
  induction stream with
  | nil => simp [accumulated_nil]
  | cons x rest ih =>
    cases x with
    | none => simp [accumulated_none]
    | some m =>
      by_cases h : m.Error = ""
      · have := incrementOf_sum_le m.Status
        rw [accumulated_clean _ _ h, List.length_cons]
        omega
      · simp [accumulated_error _ _ h]

theorem accumulated_grows (pre stream : List (Option jsonMessage)) (h : pre <+: stream) :
    accumulated pre ≤ accumulated stream := by
  induction pre generalizing stream with
  | nil => simp [accumulated_nil]
  | cons x pre ih =>
    cases stream with
    | nil => simp at h
    | cons y stream =>
      obtain ⟨hxy, hrest⟩ := List.cons_prefix_cons.mp h
      subst hxy
      cases x with
      | none => simp [accumulated_none]
      | some m =>
        by_cases hm : m.Error = ""
        · rw [accumulated_clean _ _ hm, accumulated_clean _ _ hm]
          exact Nat.add_le_add_left (ih stream hrest) _
        · simp [accumulated_error _ _ hm]

theorem increments_mem (stream : List (Option jsonMessage)) :
    ∀ n ∈ progressIncrements (pushLoop stream).events, n = 10 ∨ n = 15 := by
  induction stream with
  | nil => simp [pushLoop, progressIncrements]
  | cons x rest ih =>
    cases x with
    | none => simp [pushLoop, progressIncrements]
    | some m =>
      by_cases h : m.Error = ""
      · intro n hn
        rw [pushLoop_clean_cons _ _ h] at hn
        simp only [progressIncrements_append, progressIncrements_effects, List.mem_append] at hn
        rcases hn with hn | hn
        · rcases incrementOf_cases m.Status with h' | h' | h' <;> simp [h'] at hn
          · exact Or.inl hn
          · exact Or.inr hn
        · exact ih n hn
      · simp [pushLoop_error_cons _ _ h, progressIncrements]

/-! ## Claims on `PushImage` -/

/-- C1: when the first event with a non-empty error field stands after the
events `pre` (none of which carries an error), the loop makes exactly the
status/progress calls of the events of `pre`, in order, then `spinner.Fail`,
and returns an error, whatever the event itself carries in its status and
progress fields and whatever follows it; `PushImage` returns that error and the
progress increments it issues are those of `pre` alone. -/
theorem pushImage_stops_at_first_error (env : DockerEnv) (opts : PushOptions)
    (pre : List jsonMessage) (msg : jsonMessage) (rest : List (Option jsonMessage))
    (h1 : env.newClientErr = none) (h2 : env.marshalErr = none)
    (h3 : env.imagePush = .ok (pre.map some ++ some msg :: rest))
    (hpre : ∀ m ∈ pre, m.Error = "") (hmsg : msg.Error ≠ "") :
    pushLoop (pre.map some ++ some msg :: rest) =
        ⟨pre.flatMap statusProgressEffects ++ [.spinnerFail msg.Error],
          some ("push error: " ++ msg.Error)⟩ ∧
      PushImage env opts =
        ⟨pushPrelude opts ++ (pre.flatMap statusProgressEffects ++ [.spinnerFail msg.Error]) ++
            [.respClose, .cliClose, .ctxCancel],
          some ("push error: " ++ msg.Error)⟩ ∧
      progressIncrements (PushImage env opts).events =
        pre.filterMap (fun m => incrementOf m.Status) := by
  have hloop : pushLoop (pre.map some ++ some msg :: rest) =
      ⟨pre.flatMap statusProgressEffects ++ [.spinnerFail msg.Error],
        some ("push error: " ++ msg.Error)⟩ := by
    rw [pushLoop_clean_append pre _ hpre, pushLoop_error_cons _ _ hmsg]
  have hpush := PushImage_loop_err env opts _ ("push error: " ++ msg.Error) h1 h2 h3
    (by rw [hloop])
  rw [hloop] at hpush
  refine ⟨hloop, hpush, ?_⟩
  rw [hpush]
  simp [progressIncrements_append, progressIncrements_prelude, progressIncrements_clean,
    progressIncrements]

/-- Witness of C1: a status event, then an error event, then a further status event. -/
theorem pushImage_stops_at_first_error_witness :
    PushImage
        (streamEnv [some ⟨"Pushed", "", ""⟩, some ⟨"Pushed", "1/2", "denied"⟩,
          some ⟨"Layer already exists", "", ""⟩])
        sampleOpts =
      ⟨pushPrelude sampleOpts ++
          [.progressAdd 15, .spinnerUpdateText "Pushed", .spinnerFail "denied"] ++
          [.respClose, .cliClose, .ctxCancel],
        some "push error: denied"⟩ :=
  (pushImage_stops_at_first_error
    (streamEnv [some ⟨"Pushed", "", ""⟩, some ⟨"Pushed", "1/2", "denied"⟩,
      some ⟨"Layer already exists", "", ""⟩])
    sampleOpts [⟨"Pushed", "", ""⟩] ⟨"Pushed", "1/2", "denied"⟩
    [some ⟨"Layer already exists", "", ""⟩] rfl rfl rfl (by decide) (by decide)).2.1

/-- C2: on a stream that ends with no error-bearing event `PushImage` returns
`nil`, and the increments it issues are, event by event, 10 for a status
containing "Layer already exists", else 15 for a status containing "Pushed",
else none; the stream of the two statuses "Layer already exists" and "Pushed"
gives 10 then 15, 25 in all. -/
theorem pushImage_clean_stream (env : DockerEnv) (opts : PushOptions)
    (evs : List jsonMessage)
    (h1 : env.newClientErr = none) (h2 : env.marshalErr = none)
    (h3 : env.imagePush = .ok (evs.map some))
    (hclean : ∀ m ∈ evs, m.Error = "") :
    (PushImage env opts).err = none ∧
      progressIncrements (PushImage env opts).events =
        evs.filterMap (fun m => incrementOf m.Status) ∧
      (evs = [⟨"Layer already exists", "", ""⟩, ⟨"Pushed", "", ""⟩] →
        progressIncrements (PushImage env opts).events = [10, 15] ∧
        (progressIncrements (PushImage env opts).events).sum = 25) := by
  have hloop : pushLoop (evs.map some) = ⟨evs.flatMap statusProgressEffects, none⟩ := by
    have := pushLoop_clean_append evs [] hclean
    simpa [pushLoop] using this
  have hpush := PushImage_loop_ok env opts _ h1 h2 h3 (by rw [hloop])
  rw [hloop] at hpush
  have hinc : progressIncrements (PushImage env opts).events =
      evs.filterMap (fun m => incrementOf m.Status) := by
    rw [hpush]
    simp [progressIncrements_append, progressIncrements_prelude, progressIncrements_clean,
      progressIncrements_epilogue]
  refine ⟨by rw [hpush], hinc, ?_⟩
  intro hevs
  rw [hinc, hevs]
  decide

/-- Witness of C2: the stream of end-to-end scenario 3. -/
theorem pushImage_clean_stream_witness :
    (PushImage
        (streamEnv [some ⟨"Layer already exists", "", ""⟩, some ⟨"Pushed", "", ""⟩])
        sampleOpts).err = none ∧
      progressIncrements (PushImage
        (streamEnv [some ⟨"Layer already exists", "", ""⟩, some ⟨"Pushed", "", ""⟩])
        sampleOpts).events = [10, 15] :=
  have h := pushImage_clean_stream
    (streamEnv [some ⟨"Layer already exists", "", ""⟩, some ⟨"Pushed", "", ""⟩])
    sampleOpts [⟨"Layer already exists", "", ""⟩, ⟨"Pushed", "", ""⟩]
    rfl rfl rfl (by decide)
  ⟨h.1, (h.2.2 rfl).1⟩

/-- Counterexample to C3: on the stream of the single event with error
"unauthorized" the error `PushImage` returns reads "push error: unauthorized",
not "unauthorized". -/
theorem pushImage_unauthorized_message :
    (PushImage (streamEnv [some ⟨"", "", "unauthorized"⟩]) sampleOpts).err =
        some "push error: unauthorized" ∧
      (PushImage (streamEnv [some ⟨"", "", "unauthorized"⟩]) sampleOpts).err ≠
        some "unauthorized" := by
  decide

/-- C3, amended: when the first event carries a non-empty error `e`,
`PushImage` fails at once: it shows `e` itself through `spinner.Fail`, returns
the error "push error: " followed by `e`, makes no call of the status and
progress branches and issues no progress increment. -/
theorem pushImage_first_event_error (env : DockerEnv) (opts : PushOptions)
    (status progress e : String) (rest : List (Option jsonMessage))
    (h1 : env.newClientErr = none) (h2 : env.marshalErr = none)
    (h3 : env.imagePush = .ok (some ⟨status, progress, e⟩ :: rest))
    (he : e ≠ "") :
    (PushImage env opts).err = some ("push error: " ++ e) ∧
      (PushImage env opts).events =
        pushPrelude opts ++ [.spinnerFail e, .respClose, .cliClose, .ctxCancel] ∧
      progressIncrements (PushImage env opts).events = [] := by
  have hloop : pushLoop (some ⟨status, progress, e⟩ :: rest) =
      ⟨[.spinnerFail e], some ("push error: " ++ e)⟩ :=
    pushLoop_error_cons ⟨status, progress, e⟩ rest he
  have hpush := PushImage_loop_err env opts _ ("push error: " ++ e) h1 h2 h3 (by rw [hloop])
  rw [hloop] at hpush
  rw [hpush]
  refine ⟨rfl, by simp, ?_⟩
  simp [progressIncrements_append, progressIncrements_prelude, progressIncrements]

/-- Witness of C3, amended: the stream of end-to-end scenario 4. -/
theorem pushImage_first_event_error_witness :
    (PushImage (streamEnv [some ⟨"", "", "unauthorized"⟩]) sampleOpts).events =
      pushPrelude sampleOpts ++
        [.spinnerFail "unauthorized", .respClose, .cliClose, .ctxCancel] :=
  (pushImage_first_event_error (streamEnv [some ⟨"", "", "unauthorized"⟩]) sampleOpts
    "" "" "unauthorized" [] rfl rfl rfl (by decide)).2.1

/-- Counterexample to C9: eleven events with status "Layer already exists"
make the loop issue increments that sum to 110, above the total of 100. -/
theorem accumulated_exceeds_total :
    accumulated (List.replicate 11 (some ⟨"Layer already exists", "", ""⟩)) = 110 ∧
      ¬ accumulated (List.replicate 11 (some ⟨"Layer already exists", "", ""⟩)) ≤ 100 := by
  decide

/-- C9, amended: along the prefixes of a stream the accumulated sum of the
increments never decreases, every increment is 10 or 15, and the sum over a
stream of `n` decode results is at most `15 * n`. -/
theorem accumulated_monotone (stream pre : List (Option jsonMessage))
    (h : pre <+: stream) :
    accumulated pre ≤ accumulated stream ∧
      accumulated stream ≤ 15 * stream.length ∧
      ∀ n ∈ progressIncrements (pushLoop stream).events, n = 10 ∨ n = 15 :=
  ⟨accumulated_grows pre stream h, accumulated_le stream, increments_mem stream⟩

/-- Witness of C9, amended: one event as a prefix of a stream of two. -/
theorem accumulated_monotone_witness :
    accumulated [some ⟨"Pushed", "", ""⟩] ≤
      accumulated [some ⟨"Pushed", "", ""⟩, some ⟨"Layer already exists", "", ""⟩] :=
  (accumulated_monotone
    [some ⟨"Pushed", "", ""⟩, some ⟨"Layer already exists", "", ""⟩]
    [some ⟨"Pushed", "", ""⟩] ⟨[some ⟨"Layer already exists", "", ""⟩], rfl⟩).1

/-- C10: when a call of `Decode` fails after the events `pre`, none of which
carries an error, the loop ends as it does at the end of the stream `pre`:
nothing that follows is looked at, an error event included, and `PushImage`
returns `nil` with the same calls as on the stream `pre` that ends cleanly. -/
theorem pushImage_decode_failure (env : DockerEnv) (opts : PushOptions)
    (pre : List jsonMessage) (rest : List (Option jsonMessage))
    (h1 : env.newClientErr = none) (h2 : env.marshalErr = none)
    (h3 : env.imagePush = .ok (pre.map some ++ none :: rest))
    (hpre : ∀ m ∈ pre, m.Error = "") :
    pushLoop (pre.map some ++ none :: rest) = pushLoop (pre.map some) ∧
      PushImage env opts =
        ⟨pushPrelude opts ++ pre.flatMap statusProgressEffects ++ pushEpilogue env opts,
          none⟩ ∧
      ∀ env2 : DockerEnv, env2.newClientErr = none → env2.marshalErr = none →
        env2.greenString = env.greenString → env2.imagePush = .ok (pre.map some) →
        PushImage env2 opts = PushImage env opts := by
  have hloop : pushLoop (pre.map some ++ none :: rest) =
      ⟨pre.flatMap statusProgressEffects, none⟩ := by
    rw [pushLoop_clean_append pre _ hpre]
    simp [pushLoop]
  have hend : pushLoop (pre.map some) = ⟨pre.flatMap statusProgressEffects, none⟩ := by
    have := pushLoop_clean_append pre [] hpre
    simpa [pushLoop] using this
  have hpush := PushImage_loop_ok env opts _ h1 h2 h3 (by rw [hloop])
  rw [hloop] at hpush
  refine ⟨by rw [hloop, hend], hpush, ?_⟩
  intro env2 g1 g2 g3 g4
  have hpush2 := PushImage_loop_ok env2 opts _ g1 g2 g4 (by rw [hend])
  rw [hend] at hpush2
  rw [hpush, hpush2]
  simp [pushEpilogue, g3]

/-- Witness of C10: a decode failure followed by an error event. -/
theorem pushImage_decode_failure_witness :
    PushImage
        (streamEnv [some ⟨"Pushed", "", ""⟩, none, some ⟨"", "", "unauthorized"⟩])
        sampleOpts =
      ⟨pushPrelude sampleOpts ++ [.progressAdd 15, .spinnerUpdateText "Pushed"] ++
          pushEpilogue (streamEnv [some ⟨"Pushed", "", ""⟩, none,
            some ⟨"", "", "unauthorized"⟩]) sampleOpts,
        none⟩ :=
  (pushImage_decode_failure
    (streamEnv [some ⟨"Pushed", "", ""⟩, none, some ⟨"", "", "unauthorized"⟩])
    sampleOpts [⟨"Pushed", "", ""⟩] [some ⟨"", "", "unauthorized"⟩]
    rfl rfl rfl (by decide)).2.1

/-! ## Claims on the terraform commands -/

/-- C4: `formatPullErrorMessage` is the first-match lookup over the ordered
entries "no state file"; "access denied" or "permission denied"; "context
deadline exceeded" or "timeout"; "no such host", with the generic text last.
A message with "timeout" and "no such host" and no earlier pattern gets the
timeout message, "connection: no such host" gets the DNS message and not the
generic text, and a message with no pattern gets the generic text, which
contains the message. -/
theorem formatPullErrorMessage_first_match (errMsg : String) :
    formatPullErrorMessage errMsg = classifyFirstMatch errMsg ∧
      (Contains errMsg "timeout" = true → Contains errMsg "no such host" = true →
        Contains errMsg "no state file" = false → Contains errMsg "access denied" = false →
        Contains errMsg "permission denied" = false →
        formatPullErrorMessage errMsg = timeoutMessage) ∧
      formatPullErrorMessage "connection: no such host" = dnsMessage ∧
      dnsMessage ≠ genericHead ++ "connection: no such host" ++ genericTail ∧
      (Contains errMsg "no state file" = false → Contains errMsg "access denied" = false →
        Contains errMsg "permission denied" = false →
        Contains errMsg "context deadline exceeded" = false →
        Contains errMsg "timeout" = false → Contains errMsg "no such host" = false →
        formatPullErrorMessage errMsg = genericHead ++ errMsg ++ genericTail ∧
        Contains (formatPullErrorMessage errMsg) errMsg = true) := by
  refine ⟨?_, ?_, by decide, by decide, ?_⟩
  · unfold formatPullErrorMessage classifyFirstMatch remediationEntries
    by_cases h1 : Contains errMsg "no state file" = true
    · simp [List.find?, h1]
    by_cases h2 : Contains errMsg "access denied" = true
    · simp [List.find?, h1, h2]
    by_cases h3 : Contains errMsg "permission denied" = true
    · simp [List.find?, h1, h2, h3]
    by_cases h4 : Contains errMsg "context deadline exceeded" = true
    · simp [List.find?, h1, h2, h3, h4]
    by_cases h5 : Contains errMsg "timeout" = true
    · simp [List.find?, h1, h2, h3, h4, h5]
    by_cases h6 : Contains errMsg "no such host" = true
    · simp [List.find?, h1, h2, h3, h4, h5, h6]
    · simp [List.find?, h1, h2, h3, h4, h5, h6]
  · intro h5 _ h1 h2 h3
    simp [formatPullErrorMessage, h1, h2, h3, h5]
  · intro h1 h2 h3 h4 h5 h6
    have h : formatPullErrorMessage errMsg = genericHead ++ errMsg ++ genericTail := by
      simp [formatPullErrorMessage, h1, h2, h3, h4, h5, h6]
    exact ⟨h, by rw [h]; exact Contains_middle _ _ _⟩

/-- Witness of C4: a message with both "timeout" and "no such host". -/
theorem formatPullErrorMessage_first_match_witness :
    formatPullErrorMessage "dial tcp: i/o timeout: no such host" = timeoutMessage :=
  (formatPullErrorMessage_first_match "dial tcp: i/o timeout: no such host").2.1
    (by decide) (by decide) (by decide) (by decide) (by decide)

theorem pullRemoteState_unresolved {σ : Type} (os : OS σ) (s : σ) (workingDir e : String)
    (h : resolveTerraformBinary os s = .error e) :
    pullRemoteState os s workingDir = ⟨.error e, s, []⟩ := by
  simp [pullRemoteState, h]

theorem pullRemoteState_resolved {σ : Type} (os : OS σ) (s : σ) (workingDir path : String)
    (h : resolveTerraformBinary os s = .ok path) :
    pullRemoteState os s workingDir =
      (match (os.Run s (statePullCmd path workingDir)).1.exitError with
        | some err =>
          if (os.Run s (statePullCmd path workingDir)).1.stderr ≠ "" then
            ⟨.error (err ++ ": " ++ (os.Run s (statePullCmd path workingDir)).1.stderr),
              (os.Run s (statePullCmd path workingDir)).2,
              [.spawn (statePullCmd path workingDir)]⟩
          else
            ⟨.error err, (os.Run s (statePullCmd path workingDir)).2,
              [.spawn (statePullCmd path workingDir)]⟩
        | none =>
          if (os.Run s (statePullCmd path workingDir)).1.stdout.length = 0 then
            ⟨.error "received empty state", (os.Run s (statePullCmd path workingDir)).2,
              [.spawn (statePullCmd path workingDir)]⟩
          else
            ⟨.ok (os.Run s (statePullCmd path workingDir)).1.stdout,
              (os.Run s (statePullCmd path workingDir)).2,
              [.spawn (statePullCmd path workingDir)]⟩) := by
  simp [pullRemoteState, h, statePullCmd]

/-- C5: `pullRemoteState` never returns a zero-length success.  It returns
bytes only when the binary resolves, the invocation of `state pull` returns no
error and its standard output is not empty, and the bytes are that output; it
does return them in that case; and an invocation without error and with empty
output gives the error "received empty state". -/
theorem pullRemoteState_never_empty {σ : Type} (os : OS σ) (s : σ) (workingDir : String) :
    (∀ bytes, (pullRemoteState os s workingDir).result = .ok bytes →
        bytes ≠ [] ∧
        ∃ path, resolveTerraformBinary os s = .ok path ∧
          (os.Run s (statePullCmd path workingDir)).1.exitError = none ∧
          (os.Run s (statePullCmd path workingDir)).1.stdout = bytes) ∧
      (∀ path, resolveTerraformBinary os s = .ok path →
        (os.Run s (statePullCmd path workingDir)).1.exitError = none →
        (os.Run s (statePullCmd path workingDir)).1.stdout ≠ [] →
        (pullRemoteState os s workingDir).result =
          .ok (os.Run s (statePullCmd path workingDir)).1.stdout) ∧
      (∀ path, resolveTerraformBinary os s = .ok path →
        (os.Run s (statePullCmd path workingDir)).1.exitError = none →
        (os.Run s (statePullCmd path workingDir)).1.stdout = [] →
        (pullRemoteState os s workingDir).result = .error "received empty state") := by
  refine ⟨?_, ?_, ?_⟩
  · intro bytes hb
    cases hr : resolveTerraformBinary os s with
    | error e => simp [pullRemoteState_unresolved os s workingDir e hr] at hb
    | ok path =>
      rw [pullRemoteState_resolved os s workingDir path hr] at hb
      cases hx : (os.Run s (statePullCmd path workingDir)).1.exitError with
      | some err =>
        rw [hx] at hb
        by_cases he : (os.Run s (statePullCmd path workingDir)).1.stderr = "" <;>
          simp [he] at hb
      | none =>
        rw [hx] at hb
        by_cases ho : (os.Run s (statePullCmd path workingDir)).1.stdout = []
        · simp [ho] at hb
        · simp [ho] at hb
          exact ⟨hb ▸ ho, path, rfl, hx, hb⟩
  · intro path hr hx ho
    rw [pullRemoteState_resolved os s workingDir path hr, hx]
    simp [ho]
  · intro path hr hx ho
    rw [pullRemoteState_resolved os s workingDir path hr, hx]
    simp [ho]

/-- Witness of C5: a `state pull` that ends without error and with no output. -/
theorem pullRemoteState_never_empty_witness :
    (pullRemoteState (sampleOS 0o755 ⟨[], "", none⟩ (.ok ⟨0o755⟩)) () "/work").result =
      .error "received empty state" :=
  (pullRemoteState_never_empty (sampleOS 0o755 ⟨[], "", none⟩ (.ok ⟨0o755⟩)) () "/work").2.2
    "/usr/bin/terraform" rfl rfl rfl

theorem perm_writable (info : FileInfo)
    (h : info.mode.testBit 4 = true ∨ info.mode.testBit 1 = true) :
    info.Perm &&& 0o022 ≠ 0 := by
  intro h0
  have h4 := congrArg (fun n => Nat.testBit n 4) h0
  have h1 := congrArg (fun n => Nat.testBit n 1) h0
  simp only [FileInfo.Perm, Nat.testBit_and, Nat.zero_testBit] at h4 h1
  have e4 : (0o777 : Nat).testBit 4 = true := by decide
  have e4b : (0o022 : Nat).testBit 4 = true := by decide
  have e1 : (0o777 : Nat).testBit 1 = true := by decide
  have e1b : (0o022 : Nat).testBit 1 = true := by decide
  rw [e4, e4b] at h4
  rw [e1, e1b] at h1
  rcases h with h | h
  · simp [h] at h4
  · simp [h] at h1

/-- C6: `resolveTerraformBinary` returns a path exactly when the lookup of
"terraform" gives that path, `os.Stat` of it succeeds and the permission bits
have no bit of `0o022`; it fails with the not-found error when the lookup
fails, and with the insecure-binary error whenever the group-write bit (16) or
the other-write bit (2) of the mode is set; and when it fails
`pullRemoteState` returns its error, spawns no process and leaves the state. -/
theorem resolveTerraformBinary_secure {σ : Type} (os : OS σ) (s : σ) :
    (∀ path, resolveTerraformBinary os s = .ok path ↔
        os.LookPath s "terraform" = some path ∧
        ∃ info, os.Stat s path = .ok info ∧ info.Perm &&& 0o022 = 0) ∧
      (os.LookPath s "terraform" = none →
        resolveTerraformBinary os s = .error "terraform binary not found in PATH") ∧
      (∀ path info, os.LookPath s "terraform" = some path → os.Stat s path = .ok info →
        (info.mode.testBit 4 = true ∨ info.mode.testBit 1 = true) →
        resolveTerraformBinary os s =
          .error "terraform binary is writable; insecure PATH configuration") ∧
      (∀ e workingDir, resolveTerraformBinary os s = .error e →
        (pullRemoteState os s workingDir).result = .error e ∧
        spawned (pullRemoteState os s workingDir).events = [] ∧
        (pullRemoteState os s workingDir).events = [] ∧
        (pullRemoteState os s workingDir).state = s) := by
  refine ⟨?_, ?_, ?_, ?_⟩
  · intro path
    cases hl : os.LookPath s "terraform" with
    | none => simp [resolveTerraformBinary, hl]
    | some p =>
      cases hs : os.Stat s p with
      | error err =>
        constructor
        · intro h; simp [resolveTerraformBinary, hl, hs] at h
        · rintro ⟨hp, info, hi, _⟩
          simp only [Option.some.injEq] at hp
          subst hp
          rw [hs] at hi
          cases hi
      | ok info =>
        by_cases hw : info.Perm &&& 0o022 = 0
        · constructor
          · intro h
            simp [resolveTerraformBinary, hl, hs, hw] at h
            subst h
            exact ⟨rfl, info, hs, hw⟩
          · rintro ⟨hp, _⟩
            simp only [Option.some.injEq] at hp
            subst hp
            simp [resolveTerraformBinary, hl, hs, hw]
        · constructor
          · intro h; simp [resolveTerraformBinary, hl, hs, hw] at h
          · rintro ⟨hp, info2, hi, hz⟩
            simp only [Option.some.injEq] at hp
            subst hp
            rw [hs] at hi
            cases hi
            exact absurd hz hw
  · intro hl
    simp [resolveTerraformBinary, hl]
  · intro path info hl hs hbit
    have hw := perm_writable info hbit
    simp [resolveTerraformBinary, hl, hs, hw]
  · intro e workingDir h
    rw [pullRemoteState_unresolved os s workingDir e h]
    exact ⟨rfl, rfl, rfl, rfl⟩

/-- Witness of C6: a binary of mode `0o775` (group-writable) is refused. -/
theorem resolveTerraformBinary_secure_witness :
    resolveTerraformBinary (sampleOS 0o775 ⟨[], "", none⟩ (.ok ⟨0o755⟩)) () =
      .error "terraform binary is writable; insecure PATH configuration" :=
  (resolveTerraformBinary_secure (sampleOS 0o775 ⟨[], "", none⟩ (.ok ⟨0o755⟩)) ()).2.2.1
    "/usr/bin/terraform" ⟨0o775⟩ rfl rfl (Or.inl (by decide))

theorem checkBackendConfiguration_unresolved {σ : Type} (os : OS σ) (s : σ) (dir e : String)
    (h : resolveTerraformBinary os s = .error e) :
    checkBackendConfiguration os s dir = ⟨.error e, s, []⟩ := by
  simp [checkBackendConfiguration, h]

theorem checkBackendConfiguration_resolved {σ : Type} (os : OS σ) (s : σ) (dir path : String)
    (h : resolveTerraformBinary os s = .ok path) :
    checkBackendConfiguration os s dir =
      (match (os.Run s (initCmd path dir)).1.exitError with
        | some _ =>
          ⟨.error "backend initialization check failed", (os.Run s (initCmd path dir)).2,
            [.spawn (initCmd path dir)]⟩
        | none =>
          match os.Stat (os.Run s (initCmd path dir)).2 (os.Join dir ".terraform") with
          | .error err =>
            if err.isNotExist then
              ⟨.error "terraform directory not found, run 'terraform init' first",
                (os.Run s (initCmd path dir)).2, [.spawn (initCmd path dir)]⟩
            else
              ⟨.ok (), (os.Run s (initCmd path dir)).2, [.spawn (initCmd path dir)]⟩
          | .ok _ => ⟨.ok (), (os.Run s (initCmd path dir)).2, [.spawn (initCmd path dir)]⟩) := by
  simp [checkBackendConfiguration, h, initCmd]

/-- Counterexample to C7: the init invocation succeeds and `os.Stat` of the
`.terraform` directory fails with "permission denied", which is not a not-exist
error; `checkBackendConfiguration` returns `nil`. -/
theorem checkBackendConfiguration_stat_failure_passes :
    (sampleOS 0o755 ⟨[], "", none⟩ (.error ⟨"permission denied", false⟩)).Stat ()
        ((sampleOS 0o755 ⟨[], "", none⟩ (.error ⟨"permission denied", false⟩)).Join
          "/work" ".terraform") =
        .error ⟨"permission denied", false⟩ ∧
      (checkBackendConfiguration
        (sampleOS 0o755 ⟨[], "", none⟩ (.error ⟨"permission denied", false⟩)) ()
        "/work").result = .ok () :=
  ⟨rfl, rfl⟩

/-- C7, amended: `checkBackendConfiguration` returns `nil` exactly when the
binary resolves, the init invocation returns no error and `os.Stat` of the
`.terraform` directory does not fail with a not-exist error.  It returns the
resolution error without running anything when the binary does not resolve,
"backend initialization check failed" when the init invocation fails, and
"terraform directory not found, run 'terraform init' first" when the stat
fails with a not-exist error. -/
theorem checkBackendConfiguration_ok_iff {σ : Type} (os : OS σ) (s : σ) (dir : String) :
    ((checkBackendConfiguration os s dir).result = .ok () ↔
        ∃ path, resolveTerraformBinary os s = .ok path ∧
          (os.Run s (initCmd path dir)).1.exitError = none ∧
          ∀ err, os.Stat (os.Run s (initCmd path dir)).2 (os.Join dir ".terraform") =
            .error err → err.isNotExist = false) ∧
      (∀ e, resolveTerraformBinary os s = .error e →
        (checkBackendConfiguration os s dir).result = .error e ∧
        (checkBackendConfiguration os s dir).events = []) ∧
      (∀ path e, resolveTerraformBinary os s = .ok path →
        (os.Run s (initCmd path dir)).1.exitError = some e →
        (checkBackendConfiguration os s dir).result =
          .error "backend initialization check failed") ∧
      (∀ path err, resolveTerraformBinary os s = .ok path →
        (os.Run s (initCmd path dir)).1.exitError = none →
        os.Stat (os.Run s (initCmd path dir)).2 (os.Join dir ".terraform") = .error err →
        err.isNotExist = true →
        (checkBackendConfiguration os s dir).result =
          .error "terraform directory not found, run 'terraform init' first") := by
  refine ⟨?_, ?_, ?_, ?_⟩
  · cases hr : resolveTerraformBinary os s with
    | error e => simp [checkBackendConfiguration_unresolved os s dir e hr]
    | ok path =>
      rw [checkBackendConfiguration_resolved os s dir path hr]
      cases hx : (os.Run s (initCmd path dir)).1.exitError with
      | some e => simp [hx]
      | none =>
        cases hs : os.Stat (os.Run s (initCmd path dir)).2 (os.Join dir ".terraform") with
        | error err =>
          by_cases hn : err.isNotExist = true
          · simp [hx, hs, hn]
          · simp [hx, hs, hn]
        | ok info => simp [hx, hs]
  · intro e hr
    rw [checkBackendConfiguration_unresolved os s dir e hr]
    exact ⟨rfl, rfl⟩
  · intro path e hr hx
    rw [checkBackendConfiguration_resolved os s dir path hr, hx]
  · intro path err hr hx hs hn
    rw [checkBackendConfiguration_resolved os s dir path hr, hx]
    simp [hs, hn]

/-- Witness of C7, amended: the init invocation succeeds and the `.terraform`
directory does not exist. -/
theorem checkBackendConfiguration_ok_iff_witness :
    (checkBackendConfiguration
      (sampleOS 0o755 ⟨[], "", none⟩ (.error ⟨"no such file or directory", true⟩)) ()
      "/work").result =
      .error "terraform directory not found, run 'terraform init' first" :=
  (checkBackendConfiguration_ok_iff
    (sampleOS 0o755 ⟨[], "", none⟩ (.error ⟨"no such file or directory", true⟩)) ()
    "/work").2.2.2 "/usr/bin/terraform" ⟨"no such file or directory", true⟩ rfl rfl rfl rfl

theorem spawned_append (a b : List TfEvent) :
    spawned (a ++ b) = spawned a ++ spawned b := by
  induction a with
  | nil => rfl
  | cons e a ih => cases e <;> simp [spawned, ih]

theorem spawned_prettyPrintJSON {σ : Type} (os : OS σ) (s : σ) (data : List Nat) :
    spawned (prettyPrintJSON os s data).2 = [] := by
  cases hi : os.Indent data with
  | error err => simp [prettyPrintJSON, hi, spawned]
  | ok pretty =>
    cases hw : os.StdoutWrite s pretty with
    | some err => simp [prettyPrintJSON, hi, hw, spawned]
    | none => simp [prettyPrintJSON, hi, hw, spawned]

/-- C8: once `GetTerraform` has accepted the directory, `StatePull` runs the
state fetch in the state the precheck leaves, whatever the precheck returned: it
returns `nil` exactly when the fetch returns bytes and the fetch error, wrapped,
otherwise; the processes it spawns are those of the precheck followed by those
of the fetch; and an error of the precheck only shows as a warning. -/
theorem statePull_precheck_advisory {σ : Type} (os : OS σ) (s : σ) (dir : String)
    (useAI : Bool) (hvalid : (os.GetTerraform s dir).1 = none) :
    ((StatePull os s dir useAI).result = .ok () ↔
        ∃ bytes, (fetch os s dir).result = .ok bytes) ∧
      (∀ e, (fetch os s dir).result = .error e →
        (StatePull os s dir useAI).result = .error ("state pull failed: " ++ e)) ∧
      spawned (StatePull os s dir useAI).events =
        spawned (precheck os s dir).events ++ spawned (fetch os s dir).events ∧
      (StatePull os s dir useAI).state = (fetch os s dir).state ∧
      (∀ e, (precheck os s dir).result = .error e →
        TfEvent.logWarn ("No remote backend configured or unable to check: " ++ e) ∈
          (StatePull os s dir useAI).events) := by
  rcases hg : os.GetTerraform s dir with ⟨g, s1⟩
  rw [hg] at hvalid
  simp only at hvalid
  subst hvalid
  have hpre : precheck os s dir = checkBackendConfiguration os s1 dir := by
    simp [precheck, hg]
  have hfetch : fetch os s dir =
      pullRemoteState os (checkBackendConfiguration os s1 dir).state dir := by
    simp [fetch, hpre]
  rw [hpre, hfetch]
  cases hp : (pullRemoteState os (checkBackendConfiguration os s1 dir).state dir).result with
  | error e =>
    refine ⟨?_, ?_, ?_, ?_, ?_⟩
    · simp [StatePull, hg, hp]
    · intro e2 he2
      cases he2
      simp [StatePull, hg, hp]
    · cases hc : (checkBackendConfiguration os s1 dir).result <;>
        simp [StatePull, hg, hp, hc, spawned_append, spawned]
    · simp [StatePull, hg, hp]
    · intro e2 hc
      simp [StatePull, hg, hp, hc]
  | ok bytes =>
    refine ⟨?_, ?_, ?_, ?_, ?_⟩
    · simp [StatePull, hg, hp]
    · intro e2 he2
      cases he2
    · cases hc : (checkBackendConfiguration os s1 dir).result <;>
        cases hj : (prettyPrintJSON os
          (pullRemoteState os (checkBackendConfiguration os s1 dir).state dir).state bytes).1 <;>
        simp [StatePull, hg, hp, hc, hj, spawned_append, spawned, spawned_prettyPrintJSON]
    · simp [StatePull, hg, hp]
    · intro e2 hc
      simp [StatePull, hg, hp, hc]

/-- Witness of C8: the precheck fails (the `.terraform` directory does not
exist) and the fetch returns the state; `StatePull` returns `nil`. -/
theorem statePull_precheck_advisory_witness :
    (precheck (sampleOS 0o755 ⟨[123, 125], "", none⟩
        (.error ⟨"no such file or directory", true⟩)) () "/work").result =
        .error "terraform directory not found, run 'terraform init' first" ∧
      (StatePull (sampleOS 0o755 ⟨[123, 125], "", none⟩
        (.error ⟨"no such file or directory", true⟩)) () "/work" false).result = .ok () :=
  ⟨rfl,
    (statePull_precheck_advisory (sampleOS 0o755 ⟨[123, 125], "", none⟩
      (.error ⟨"no such file or directory", true⟩)) () "/work" false rfl).1.mpr
      ⟨[123, 125], rfl⟩⟩

end Smurf
